import Mathlib

/-!
Shallow embedding of the write-coalescing / debounce subsystem of the
firewrapper repository (src/src/store.js and src/src/asyncstore.js), together
with the metadata stamping, the create path (AddItem), the two GetItem
variants and the shutdown guard (clearCacheBeforeUnload).

Modelling conventions:
- JS string identifiers that may be missing (undefined / empty) are modelled
  as `String` with `""` standing for a missing / falsy identifier.
- Timestamps (`new Date()`) are modelled as a `Nat` parameter `now` supplied
  to each call.
- A document is its user fields (an insertion-ordered association list, the
  model of a plain JS object) plus an optional `_METADATA` object with the
  three fields the code ever writes.
- `localStorage` is a typed key-value store; `JSON.parse/stringify` round
  trips faithfully on the values the code stores, so it is elided.
- Armed `setTimeout` timers are kept in a list of `Timer` records; each
  records the values its `saveToBackend` closure captured (the call's own
  stamped document and overwrite flag, as in the source).
- The Firestore backend call `setDoc(ref, doc, (merge: m))` is modelled by
  the `PutReq` it issues; `setDocApply` gives the resulting stored document
  (Firestore merges map fields recursively when merge is true).
-/

namespace Firewrapper

/-- User-level field values of a document (the claims only need flat data). -/
abbrev Val := Nat

/-- A plain JS object with number fields: insertion-ordered association list. -/
abbrev Obj := List (String × Val)

/-- Property read `o[k]`. -/
def Obj.get (o : Obj) (k : String) : Option Val :=
  match o.find? (fun p => p.1 == k) with
  | some p => some p.2
  | none => none

/-- Property write: JS keeps an existing key at its position, else appends. -/
def Obj.insert (o : Obj) (k : String) (v : Val) : Obj :=
  if o.any (fun p => p.1 == k) then
    o.map (fun p => if p.1 == k then (k, v) else p)
  else o ++ [(k, v)]

/-- JS object spread `(...a, ...b)`: b's own keys override a's. -/
def Obj.spread (a b : Obj) : Obj :=
  b.foldl (fun acc p => Obj.insert acc p.1 p.2) a

/-- The `_METADATA` object; each field is optional because the stamping code
sets `_DATE_CREATED` only conditionally (store.js lines 207-213). -/
structure Metadata where
  dateCreated : Option Nat
  dateLastModified : Option Nat
  documentId : Option String
deriving DecidableEq, Repr

/-- A document: user fields plus an optional `_METADATA` property. -/
structure Doc where
  fields : Obj
  metadata : Option Metadata
deriving DecidableEq, Repr

def Doc.dateCreated (d : Doc) : Option Nat := d.metadata.bind Metadata.dateCreated

def Doc.dateLastModified (d : Doc) : Option Nat := d.metadata.bind Metadata.dateLastModified

def Doc.documentId (d : Doc) : Option String := d.metadata.bind Metadata.documentId

/-- JS shallow spread `(...cacheData, ...document)` on documents: user fields
spread, and the whole `_METADATA` property of the right side wins when it is
present (store.js line 280). -/
def Doc.spread (a b : Doc) : Doc :=
  { fields := Obj.spread a.fields b.fields,
    metadata := match b.metadata with
      | some m => some m
      | none => a.metadata }

/-- Firestore field merge on the `_METADATA` map: fields set in the incoming
metadata overwrite, fields it leaves unset keep the stored value. -/
def Metadata.mergeFields (old incoming : Metadata) : Metadata :=
  { dateCreated := match incoming.dateCreated with
      | some x => some x
      | none => old.dateCreated,
    dateLastModified := match incoming.dateLastModified with
      | some x => some x
      | none => old.dateLastModified,
    documentId := match incoming.documentId with
      | some x => some x
      | none => old.documentId }

/-- Result stored by `setDoc(docRef, d, (merge: m))`: with merge false the
document is replaced; with merge true Firestore merges top-level fields and
merges map fields (here `_METADATA`) recursively. -/
def setDocApply (stored : Option Doc) (d : Doc) (mrg : Bool) : Doc :=
  if mrg then
    match stored with
    | none => d
    | some old =>
        { fields := Obj.spread old.fields d.fields,
          metadata :=
            match old.metadata, d.metadata with
            | some om, some nm => some (Metadata.mergeFields om nm)
            | some om, none => some om
            | none, nm => nm }
  else d

/-- Metadata stamping shared by store.js SetItem (lines 205-216) and
asyncstore.js SetItem (lines 206-217): build a fresh `_METADATA` holding
`_DATE_LAST_MODIFIED = currentdate` and `_DOCUMENT_ID = itemId`, add
`_DATE_CREATED = currentdate` only when `overwrite` is set or the incoming
data lacks `_METADATA._DATE_CREATED`, then replace the data's `_METADATA`
wholesale via `(...data, _METADATA)`. -/
def stampEdit (itemId : String) (data : Doc) (overwrite : Bool) (now : Nat) : Doc :=
  let needCreated := overwrite || (data.metadata.bind Metadata.dateCreated).isNone
  { fields := data.fields,
    metadata := some
      { dateCreated := if needCreated then some now else none,
        dateLastModified := some now,
        documentId := some itemId } }

/-- Status constants from constants.js (CONSTANTS.SUCCESS / CONSTANTS.ERROR). -/
inductive Status
  | success
  | error
deriving DecidableEq, Repr

/-- One invocation of a caller's result callback; the payload is the document
on buffered/immediate write success and nothing of interest otherwise. -/
inductive CbEvent
  | result (s : Status) (payload : Option Doc)
deriving DecidableEq, Repr

/-- One backend write issued by `setDoc`. -/
structure PutReq where
  collectionId : String
  itemId : String
  doc : Doc
  merge : Bool
deriving DecidableEq, Repr

/-- An armed `setTimeout` handle with the values its `saveToBackend` closure
captured: the call's own stamped document and overwrite flag (store.js lines
219-235 read `document` and `overwrite` from the enclosing SetItem call). -/
structure Timer where
  id : Nat
  delayMs : Nat
  collectionId : String
  itemId : String
  doc : Doc
  overwrite : Bool
deriving DecidableEq, Repr

/-- Pointwise update of a string-keyed store (localStorage.setItem). -/
def fset {α : Type} (m : String → Option α) (k : String) (v : α) : String → Option α :=
  fun x => if x = k then some v else m x

/-- The localStorage contents the delay path uses: the per-key document cache,
timer-handle cache and merge-flag cache, plus the global TIMER_IDS array
(`none` models the key being absent, so that `JSON.parse` yields null). -/
structure LocalStorage where
  docCache : String → Option Doc
  timerCache : String → Option Nat
  mergeCache : String → Option Bool
  timerIds : Option (List Nat)

/-- Whole-system state: localStorage, the armed timers, a fresh-handle
counter, and the observable trace of backend puts and callback invocations. -/
structure St where
  ls : LocalStorage
  timers : List Timer
  nextTimerId : Nat
  puts : List PutReq
  events : List CbEvent

/-- Initial state: empty localStorage (every key absent), no timers, no trace. -/
def St.init : St :=
  { ls := { docCache := fun _ => none, timerCache := fun _ => none,
            mergeCache := fun _ => none, timerIds := none },
    timers := [], nextTimerId := 0, puts := [], events := [] }

def documentKey (cid iid : String) : String := cid ++ "." ++ iid

def timerKey (cid iid : String) : String := documentKey cid iid ++ "-TIMER"

def mergeKey (cid iid : String) : String := documentKey cid iid ++ "-MERGE"

/-- The DELAY section of store.js SetItem (lines 242-296). `document` is the
already-stamped document of this call. The `match` on the cached document is
the source's `cacheIsEmpty` test. Note three source facts this embedding
keeps: (1) in the empty-cache branch the new timer id is never pushed onto
`timerIds`; (2) in the repeat branch the old handle is cleared and filtered
out and the new one pushed; (3) the final `setItem(timerIDsKey, ...)` always
runs, so TIMER_IDS becomes present even on a first write. -/
def setItemDelay (st : St) (cid iid : String) (document : Doc) (overwrite : Bool) : St :=
  let dk := documentKey cid iid
  let tk := timerKey cid iid
  let mk := mergeKey cid iid
  let timerIds := st.ls.timerIds.getD []
  match st.ls.docCache dk with
  | none =>
      let tid := st.nextTimerId
      { st with
        ls := { docCache := fset st.ls.docCache dk document,
                timerCache := fset st.ls.timerCache tk tid,
                mergeCache := fset st.ls.mergeCache mk (!overwrite),
                timerIds := some timerIds },
        timers := st.timers ++ [⟨tid, 5000, cid, iid, document, overwrite⟩],
        nextTimerId := tid + 1 }
  | some cacheData =>
      let cacheTimerId := st.ls.timerCache tk
      let newCache := if overwrite then document else Doc.spread cacheData document
      let tid := st.nextTimerId
      { st with
        ls := { docCache := fset st.ls.docCache dk newCache,
                timerCache := fset st.ls.timerCache tk tid,
                mergeCache := fset st.ls.mergeCache mk (!overwrite),
                timerIds :=
                  some ((timerIds.filter (fun i => decide (some i ≠ cacheTimerId))) ++ [tid]) },
        timers := (st.timers.filter (fun t => decide (some t.id ≠ cacheTimerId)))
                  ++ [⟨tid, 3000, cid, iid, document, overwrite⟩],
        nextTimerId := tid + 1 }

/-- store.js SetItem (lines 184-296). Missing identifiers are modelled as "".
With useDelay false the function runs `saveToBackend` at once: one `setDoc`
with `merge = !overwrite`, then the callback with SUCCESS and the stamped
document, or with ERROR (`putOk` selects which branch the promise takes).
With useDelay true it runs the delay section. -/
def SetItemStore (st : St) (cid iid : String) (data : Doc) (overwrite : Bool)
    (useDelay : Bool) (now : Nat) (putOk : Bool) : St :=
  if cid = "" ∨ iid = "" then
    { st with events := st.events ++ [CbEvent.result Status.error none] }
  else
    let document := stampEdit iid data overwrite now
    if useDelay then
      setItemDelay st cid iid document overwrite
    else
      { st with
        puts := st.puts ++ [⟨cid, iid, document, !overwrite⟩],
        events := st.events ++
          [if putOk then CbEvent.result Status.success (some document)
           else CbEvent.result Status.error none] }

/-- An armed timeout fires: the browser consumes the handle and runs the
`saveToBackend` closure (store.js lines 219-235), which issues exactly one
`setDoc` with the closure's document and `merge = !overwrite`, then invokes
the callback. The closure touches neither localStorage nor TIMER_IDS. -/
def fireTimer (st : St) (tid : Nat) (putOk : Bool) : St :=
  match st.timers.find? (fun t => t.id == tid) with
  | none => st
  | some t =>
      { st with
        timers := st.timers.filter (fun x => decide (x.id ≠ tid)),
        puts := st.puts ++ [⟨t.collectionId, t.itemId, t.doc, !t.overwrite⟩],
        events := st.events ++
          [if putOk then CbEvent.result Status.success (some t.doc)
           else CbEvent.result Status.error none] }

/-- asyncstore.js SetItem (lines 185-224): identical checks and stamping,
then it returns the `setDoc(docRef, document, (merge: !overwrite))` promise
directly; the callback is never invoked after the write and the `useDelay`
parameter is accepted but unused. -/
def SetItemAsync (st : St) (cid iid : String) (data : Doc) (overwrite : Bool)
    (_useDelay : Bool) (now : Nat) (_putOk : Bool) : St :=
  if cid = "" ∨ iid = "" then
    { st with events := st.events ++ [CbEvent.result Status.error none] }
  else
    let document := stampEdit iid data overwrite now
    { st with puts := st.puts ++ [⟨cid, iid, document, !overwrite⟩] }

/-- The document AddItem builds (store.js lines 150-158): fresh metadata with
`_DATE_CREATED = _DATE_LAST_MODIFIED = currentdate` and `_DOCUMENT_ID` equal
to the generated docRef id, replacing any `_METADATA` of the input. -/
def addItemDocument (data : Doc) (genId : String) (now : Nat) : Doc :=
  { fields := data.fields,
    metadata := some
      { dateCreated := some now,
        dateLastModified := some now,
        documentId := some genId } }

/-- store.js AddItem (lines 133-167): argument check, then a full `setDoc`
(no merge option) of the stamped document. `genId` is the id of the doc
reference Firestore generates. The success callback passes the docRef, not
the document, so its payload is modelled as `none`. -/
def AddItemStore (st : St) (cid : String) (data : Doc) (genId : String) (now : Nat)
    (putOk : Bool) : St :=
  if cid = "" then
    { st with events := st.events ++ [CbEvent.result Status.error none] }
  else
    { st with
      puts := st.puts ++ [⟨cid, genId, addItemDocument data genId now, false⟩],
      events := st.events ++
        [if putOk then CbEvent.result Status.success none
         else CbEvent.result Status.error none] }

/-- Outcome of running the beforeunload handler. -/
inductive UnloadOutcome
  | blocked
  | allowed
  | fault
deriving DecidableEq, Repr

/-- JS property read `timerIds.lenth` on an array: `lenth` (a misspelling of
`length`, store.js line 374) is not a property arrays have, so the read
evaluates to undefined, modelled as `none`. -/
def arrayLenth (_ids : List Nat) : Option Nat := none

/-- JS comparison `x > 0` where x may be undefined: `undefined > 0` is false;
a number compares numerically. -/
def jsGtZero : Option Nat → Bool
  | none => false
  | some n => decide (0 < n)

/-- store.js clearCacheBeforeUnload (lines 371-378), identical in
asyncstore.js (lines 299-306): parse TIMER_IDS (null when the key is absent,
so the subsequent property access throws TypeError, modelled as `fault`);
otherwise test `timerIds.lenth > 0` and block the unload when it holds. The
handler never writes to localStorage. -/
def clearCacheBeforeUnload (timerIds : Option (List Nat)) : UnloadOutcome :=
  match timerIds with
  | none => UnloadOutcome.fault
  | some ids =>
      if jsGtZero (arrayLenth ids) then UnloadOutcome.blocked else UnloadOutcome.allowed

/-- Observable steps of a GetItem run. -/
inductive Step
  | cbError
  | cbSuccess
  | backendGet
  | throwRefError
deriving DecidableEq, Repr

/-- store.js GetItem (lines 45-69): on a missing identifier, invoke the
callback with ERROR and return; otherwise perform the backend `getDoc` and
report the outcome (`found` tells whether the snapshot exists). -/
def GetItemV1 (cid iid : String) (found : Bool) : List Step :=
  if cid = "" ∨ iid = "" then [Step.cbError]
  else [Step.backendGet, if found then Step.cbSuccess else Step.cbError]

/-- store.js GetItem, second variant (lines 429-452): the same check invokes
the callback with ERROR but has no early return, so execution always falls
through to the operation; its first statement calls `getDatabase`, an
identifier the module never imports or defines, raising an uncaught
ReferenceError before any backend request. -/
def GetItemV2 (cid iid : String) : List Step :=
  (if cid = "" ∨ iid = "" then [Step.cbError] else []) ++ [Step.throwRefError]

/-- One SetItem call of a buffered burst: the caller's data, overwrite flag
and the clock reading at the call. -/
structure WriteCall where
  data : Doc
  overwrite : Bool
  now : Nat
deriving DecidableEq, Repr

/-- A burst: successive buffered SetItem calls (useDelay true) on one key,
with no timer firing in between (all within the debounce window). -/
def runBurst (st : St) (cid iid : String) (ws : List WriteCall) : St :=
  ws.foldl (fun s w => SetItemStore s cid iid w.data w.overwrite true w.now true) st

/-- Invariant after a non-empty buffered burst on key (cid, iid) started from
the initial state: exactly one timer is armed, its closure holds the stamped
document and overwrite flag of the burst's last call, the timer cache points
at its handle, the document cache is populated, and no put has been issued. -/
def BurstState (cid iid : String) (st : St) (w : WriteCall) : Prop :=
  ∃ t : Timer,
    st.timers = [t] ∧
    t.collectionId = cid ∧ t.itemId = iid ∧
    t.doc = stampEdit iid w.data w.overwrite w.now ∧
    t.overwrite = w.overwrite ∧
    st.ls.timerCache (timerKey cid iid) = some t.id ∧
    (st.ls.docCache (documentKey cid iid)).isSome = true ∧
    st.puts = []


/-! ## Claim theorems -/

/-- Claim C1 (code bug): two rapid buffered writes (overwrite=false,
useDelay=true) on one key do end in exactly one backend put, but the put
carries only the last call's stamped document, not the shallow merge of both:
the fired `saveToBackend` closure captured its own call's `document` and never
reads the merged cache entry, which still holds the first call's field. -/
theorem c1_flush_ignores_merged_cache :
    ((fireTimer (runBurst St.init "c" "i"
        [⟨⟨[("a", 1)], none⟩, false, 0⟩, ⟨⟨[("b", 2)], none⟩, false, 1⟩]) 1 true).puts =
      [⟨"c", "i", stampEdit "i" ⟨[("b", 2)], none⟩ false 1, true⟩]) ∧
    Obj.get (stampEdit "i" ⟨[("b", 2)], none⟩ false 1).fields "a" = none ∧
    ((runBurst St.init "c" "i"
        [⟨⟨[("a", 1)], none⟩, false, 0⟩, ⟨⟨[("b", 2)], none⟩, false, 1⟩]).ls.docCache
        (documentKey "c" "i")).map (fun d => Obj.get d.fields "a") = some (some 1) := by
  decide

/-- Claim C2 counterexample: a burst whose FIRST write has overwrite=true and
whose last write has overwrite=false ends in a single flush whose put uses
merge = true, not the full replacement (merge = false) the claim demands. -/
theorem c2_overwrite_position_counterexample :
    (fireTimer (runBurst St.init "c" "i"
        [⟨⟨[("a", 1)], none⟩, true, 0⟩, ⟨⟨[("b", 2)], none⟩, false, 1⟩]) 1 true).puts.map
      PutReq.merge = [true] := by
  decide

theorem burstState_first (cid iid : String) (hc : cid ≠ "") (hi : iid ≠ "")
    (st : St) (w : WriteCall)
    (hdc : st.ls.docCache (documentKey cid iid) = none)
    (ht : st.timers = []) (hp : st.puts = []) :
    BurstState cid iid
      (SetItemStore st cid iid w.data w.overwrite true w.now true) w := by
  refine ⟨⟨st.nextTimerId, 5000, cid, iid,
            stampEdit iid w.data w.overwrite w.now, w.overwrite⟩, ?_⟩
  simp [SetItemStore, setItemDelay, hc, hi, hdc, ht, hp, fset]

theorem burstState_step (cid iid : String) (hc : cid ≠ "") (hi : iid ≠ "")
    (st : St) (w w' : WriteCall) (hbs : BurstState cid iid st w) :
    BurstState cid iid
      (SetItemStore st cid iid w'.data w'.overwrite true w'.now true) w' := by
  obtain ⟨t, ht, htc, hti, htd, hto, htk, hdc, hp⟩ := hbs
  obtain ⟨d, hd⟩ := Option.isSome_iff_exists.mp hdc
  refine ⟨⟨st.nextTimerId, 3000, cid, iid,
            stampEdit iid w'.data w'.overwrite w'.now, w'.overwrite⟩, ?_⟩
  simp [SetItemStore, setItemDelay, hc, hi, hd, ht, htk, hp, fset]

theorem burstState_runBurst (cid iid : String) (hc : cid ≠ "") (hi : iid ≠ "")
    (ws : List WriteCall) (st : St) (w : WriteCall) (hbs : BurstState cid iid st w) :
    BurstState cid iid (runBurst st cid iid ws) (ws.getLastD w) := by
  induction ws generalizing st w with
  | nil => simpa [runBurst] using hbs
  | cons w2 ws ih =>
      have h2 := burstState_step cid iid hc hi st w w2 hbs
      have h3 := ih _ _ h2
      rw [List.getLastD_cons]
      simpa [runBurst] using h3

/-- Claim C2 amended: for a buffered burst on one key starting from the
initial state, exactly one timer survives and the single flush that ends the
burst calls the backend put with merge = !(overwrite of the LAST write in the
burst): the last writer's overwrite intent wins, regardless of any earlier
overwrite=true write. -/
theorem c2_last_writer_merge_flag (cid iid : String) (hc : cid ≠ "") (hi : iid ≠ "")
    (w : WriteCall) (ws : List WriteCall) :
    ∃ t : Timer,
      (runBurst St.init cid iid (w :: ws)).timers = [t] ∧
      t.overwrite = (ws.getLastD w).overwrite ∧
      (fireTimer (runBurst St.init cid iid (w :: ws)) t.id true).puts =
        [⟨cid, iid,
          stampEdit iid (ws.getLastD w).data (ws.getLastD w).overwrite (ws.getLastD w).now,
          !(ws.getLastD w).overwrite⟩] := by
  have h0 := burstState_first cid iid hc hi St.init w rfl rfl rfl
  have h1 := burstState_runBurst cid iid hc hi ws _ w h0
  have hrw : runBurst St.init cid iid (w :: ws) =
      runBurst (SetItemStore St.init cid iid w.data w.overwrite true w.now true) cid iid ws := by
    simp [runBurst]
  rw [hrw]
  obtain ⟨t, ht, htc, hti, htd, hto, htk, hdc, hp⟩ := h1
  refine ⟨t, ht, by rw [hto], ?_⟩
  simp [fireTimer, ht, hp, htc, hti, htd, hto]

/-- Claim C2 amended, witness: the burst (overwrite=true then overwrite=false)
fires one flush whose put uses merge = !(last write's overwrite) = true. -/
theorem c2_last_writer_merge_flag_witness :
    ∃ t : Timer,
      (runBurst St.init "c" "i"
          [⟨⟨[("a", 1)], none⟩, true, 0⟩, ⟨⟨[("b", 2)], none⟩, false, 1⟩]).timers = [t] ∧
      t.overwrite = (([⟨⟨[("b", 2)], none⟩, false, 1⟩] : List WriteCall).getLastD
          ⟨⟨[("a", 1)], none⟩, true, 0⟩).overwrite ∧
      (fireTimer (runBurst St.init "c" "i"
          [⟨⟨[("a", 1)], none⟩, true, 0⟩, ⟨⟨[("b", 2)], none⟩, false, 1⟩]) t.id true).puts =
        [⟨"c", "i",
          stampEdit "i"
            (([⟨⟨[("b", 2)], none⟩, false, 1⟩] : List WriteCall).getLastD
              ⟨⟨[("a", 1)], none⟩, true, 0⟩).data
            (([⟨⟨[("b", 2)], none⟩, false, 1⟩] : List WriteCall).getLastD
              ⟨⟨[("a", 1)], none⟩, true, 0⟩).overwrite
            (([⟨⟨[("b", 2)], none⟩, false, 1⟩] : List WriteCall).getLastD
              ⟨⟨[("a", 1)], none⟩, true, 0⟩).now,
          !(([⟨⟨[("b", 2)], none⟩, false, 1⟩] : List WriteCall).getLastD
              ⟨⟨[("a", 1)], none⟩, true, 0⟩).overwrite⟩] :=
  c2_last_writer_merge_flag "c" "i" (by decide) (by decide)
    ⟨⟨[("a", 1)], none⟩, true, 0⟩ [⟨⟨[("b", 2)], none⟩, false, 1⟩]

/-- Claim C3 (code bug): the shutdown guard never blocks termination. The
source tests `timerIds.lenth > 0` (a misspelling of `length`), which reads
undefined, so the condition is false even with an armed handle registered;
with the registry non-empty ([7]) the handler still allows termination. -/
theorem c3_shutdown_guard_never_blocks :
    clearCacheBeforeUnload (some [7]) = UnloadOutcome.allowed ∧
    clearCacheBeforeUnload (some []) = UnloadOutcome.allowed := by
  decide

/-- Claim C4 (code bug): after the single timer of a buffered write fires and
the flush completes (successfully or not), the timer handle is consumed but
`saveToBackend` removes nothing from localStorage: the document cache, timer
cache and merge-flag entries all survive, so the PendingWrite is never
destroyed and the state is left half-cleared rather than returning to IDLE. -/
theorem c4_flush_leaves_pending_state :
    ((fireTimer (SetItemStore St.init "c" "i" ⟨[("a", 1)], none⟩ false true 0 true)
        0 true).timers = []) ∧
    ((fireTimer (SetItemStore St.init "c" "i" ⟨[("a", 1)], none⟩ false true 0 true)
        0 true).ls.docCache (documentKey "c" "i")).isSome = true ∧
    ((fireTimer (SetItemStore St.init "c" "i" ⟨[("a", 1)], none⟩ false true 0 true)
        0 true).ls.timerCache (timerKey "c" "i")).isSome = true ∧
    ((fireTimer (SetItemStore St.init "c" "i" ⟨[("a", 1)], none⟩ false true 0 true)
        0 true).ls.mergeCache (mergeKey "c" "i")).isSome = true ∧
    ((fireTimer (SetItemStore St.init "c" "i" ⟨[("a", 1)], none⟩ false true 0 true)
        0 false).ls.docCache (documentKey "c" "i")).isSome = true := by
  decide

/-- Claim C5 (code bug): the TIMER_IDS registry misses armed and fired
handles. After the first buffered write one timer is armed yet the registry
is the empty array (the empty-cache branch never pushes the new id); after a
second write the registry holds the replacement handle [1], but firing that
timer leaves [1] in the registry because `saveToBackend` never removes it. -/
theorem c5_registry_misses_timers :
    ((SetItemStore St.init "c" "i" ⟨[("a", 1)], none⟩ false true 0 true).timers.length = 1) ∧
    ((SetItemStore St.init "c" "i" ⟨[("a", 1)], none⟩ false true 0 true).ls.timerIds =
      some []) ∧
    ((runBurst St.init "c" "i"
        [⟨⟨[("a", 1)], none⟩, false, 0⟩, ⟨⟨[("b", 2)], none⟩, false, 1⟩]).ls.timerIds =
      some [1]) ∧
    ((fireTimer (runBurst St.init "c" "i"
        [⟨⟨[("a", 1)], none⟩, false, 0⟩, ⟨⟨[("b", 2)], none⟩, false, 1⟩]) 1 true).timers =
      []) ∧
    ((fireTimer (runBurst St.init "c" "i"
        [⟨⟨[("a", 1)], none⟩, false, 0⟩, ⟨⟨[("b", 2)], none⟩, false, 1⟩]) 1 true).ls.timerIds =
      some [1]) := by
  decide

/-- Claim C6 counterexample: an edit write with overwrite=false of data whose
metadata carries _DATE_CREATED = 5 produces a stamped document whose metadata
has NO _DATE_CREATED at all (the stamping replaces _METADATA wholesale and
only sets _DATE_CREATED when it was absent), so the stamped document handed
to the flush does not itself preserve the prior value. -/
theorem c6_stamp_drops_date_created :
    (Doc.dateCreated ⟨[("a", 1)], some ⟨some 5, some 4, some "i"⟩⟩ = some 5) ∧
    (stampEdit "i" ⟨[("a", 1)], some ⟨some 5, some 4, some "i"⟩⟩ false 9).dateCreated ≠
      some 5 ∧
    (stampEdit "i" ⟨[("a", 1)], some ⟨some 5, some 4, some "i"⟩⟩ false 9).dateCreated =
      none := by
  decide

/-- Claim C6 amended: for an edit write with overwrite=false whose data
carries a _DATE_CREATED, the stamped document leaves _DATE_CREATED unset
(rather than carrying the prior value), and because the flush writes with
merge=true the STORED document's _DATE_CREATED remains the backend's prior
value unchanged. -/
theorem c6_merge_preserves_stored_date_created (iid : String) (data : Doc) (now v : Nat)
    (h : data.dateCreated = some v) (stored : Doc) :
    (stampEdit iid data false now).dateCreated = none ∧
    (setDocApply (some stored) (stampEdit iid data false now) true).dateCreated =
      stored.dateCreated := by
  obtain ⟨m, hm⟩ : ∃ m, data.metadata = some m := by
    cases hmm : data.metadata with
    | none => simp [Doc.dateCreated, hmm] at h
    | some m => exact ⟨m, rfl⟩
  have hmv : m.dateCreated = some v := by
    simpa [Doc.dateCreated, hm] using h
  cases hsm : stored.metadata with
  | none =>
      simp [stampEdit, hm, hmv, setDocApply, Doc.dateCreated, Metadata.mergeFields, hsm]
  | some om =>
      simp [stampEdit, hm, hmv, setDocApply, Doc.dateCreated, Metadata.mergeFields, hsm]

/-- Claim C6 amended, witness at concrete input: data with _DATE_CREATED = 5,
stored backend document with _DATE_CREATED = 2. -/
theorem c6_merge_preserves_stored_date_created_witness :
    (stampEdit "i" ⟨[("a", 1)], some ⟨some 5, some 4, some "i"⟩⟩ false 9).dateCreated =
      none ∧
    (setDocApply (some ⟨[("z", 9)], some ⟨some 2, some 3, some "j"⟩⟩)
        (stampEdit "i" ⟨[("a", 1)], some ⟨some 5, some 4, some "i"⟩⟩ false 9)
        true).dateCreated =
      Doc.dateCreated ⟨[("z", 9)], some ⟨some 2, some 3, some "j"⟩⟩ :=
  c6_merge_preserves_stored_date_created "i" ⟨[("a", 1)], some ⟨some 5, some 4, some "i"⟩⟩
    9 5 (by decide) ⟨[("z", 9)], some ⟨some 2, some 3, some "j"⟩⟩

/-- Claim C7: every document created through AddItem is stored by one full
(merge=false) put whose document has _DATE_CREATED = _DATE_LAST_MODIFIED and
_DOCUMENT_ID equal to the generated identity; the merge=false put replaces
whatever was stored before, so the stored document is exactly that one. -/
theorem c7_add_item_metadata (cid : String) (hc : cid ≠ "") (data : Doc) (genId : String)
    (now : Nat) (putOk : Bool) (prior : Option Doc) :
    (AddItemStore St.init cid data genId now putOk).puts =
      [⟨cid, genId, addItemDocument data genId now, false⟩] ∧
    setDocApply prior (addItemDocument data genId now) false =
      addItemDocument data genId now ∧
    (addItemDocument data genId now).dateCreated =
      (addItemDocument data genId now).dateLastModified ∧
    (addItemDocument data genId now).documentId = some genId := by
  refine ⟨?_, ?_, ?_, ?_⟩ <;>
    simp [AddItemStore, hc, addItemDocument, Doc.dateCreated, Doc.dateLastModified,
      Doc.documentId, setDocApply, St.init]

/-- Claim C7 witness at a concrete creation. -/
theorem c7_add_item_metadata_witness :
    (AddItemStore St.init "users" ⟨[("a", 1)], none⟩ "gen1" 7 true).puts =
      [⟨"users", "gen1", addItemDocument ⟨[("a", 1)], none⟩ "gen1" 7, false⟩] ∧
    setDocApply none (addItemDocument ⟨[("a", 1)], none⟩ "gen1" 7) false =
      addItemDocument ⟨[("a", 1)], none⟩ "gen1" 7 ∧
    (addItemDocument ⟨[("a", 1)], none⟩ "gen1" 7).dateCreated =
      (addItemDocument ⟨[("a", 1)], none⟩ "gen1" 7).dateLastModified ∧
    (addItemDocument ⟨[("a", 1)], none⟩ "gen1" 7).documentId = some "gen1" :=
  c7_add_item_metadata "users" (by decide) ⟨[("a", 1)], none⟩ "gen1" 7 true none

/-- Claim C8 (code bug): the first GetItem variant fails fast on a missing
itemId (error callback only, no backend step), but the second variant, after
the same error callback, falls through (its check has no return) and raises
an uncaught ReferenceError at the undefined `getDatabase`, so the error path
is neither side-effect free nor free of uncaught faults. -/
theorem c8_second_variant_falls_through :
    GetItemV1 "users" "" true = [Step.cbError] ∧
    GetItemV2 "users" "" = [Step.cbError, Step.throwRefError] := by
  decide

/-- Claim C9 counterexample: on identical valid inputs with useDelay=false
and a successful put, the two SetItem variants issue the same backend write
but do NOT report the same result: the store variant invokes the callback
with SUCCESS and the document, the asyncstore variant never invokes the
callback after the write. -/
theorem c9_callback_reporting_differs :
    ((SetItemStore St.init "c" "i" ⟨[("a", 1)], none⟩ false false 0 true).puts =
      (SetItemAsync St.init "c" "i" ⟨[("a", 1)], none⟩ false false 0 true).puts) ∧
    (SetItemStore St.init "c" "i" ⟨[("a", 1)], none⟩ false false 0 true).events ≠
      (SetItemAsync St.init "c" "i" ⟨[("a", 1)], none⟩ false false 0 true).events := by
  decide

/-- Claim C9 amended: on the same inputs with useDelay=false the two SetItem
variants issue the identical backend write (same stamped document and
merge = !overwrite), for every input and regardless of the put outcome; they
differ in result reporting (see the counterexample), not in the write. -/
theorem c9_same_backend_write (cid iid : String) (data : Doc) (overwrite : Bool)
    (now : Nat) (putOk1 putOk2 : Bool) (st : St) :
    (SetItemStore st cid iid data overwrite false now putOk1).puts =
      (SetItemAsync st cid iid data overwrite false now putOk2).puts := by
  by_cases h : cid = "" ∨ iid = ""
  · simp [SetItemStore, SetItemAsync, h]
  · simp [SetItemStore, SetItemAsync, h]

/-- Claim C10 (code bug): when no buffered write was ever recorded the
TIMER_IDS key is absent, `JSON.parse(localStorage.getItem(..))` yields null,
and the handler's `timerIds.lenth` access throws a TypeError instead of
completing and allowing termination. -/
theorem c10_null_registry_faults :
    clearCacheBeforeUnload none = UnloadOutcome.fault := by
  decide

end Firewrapper
